import Mathlib

/-!
Verification of the bridging engine of the Source↔Sink messaging bridge
(`TelegramBridge` in the repository). Each section shallowly embeds one part
of the source file `src/unnamed/part_000` (with the command layer in
`src/bridge.js`): pure logic becomes Lean functions, the mutable maps of the
class become explicit association lists, and the single-threaded cooperative
scheduling of the host runtime is modelled by atomic steps between suspension
points.
-/

/-! ### Association-list helpers (model of the Map objects of the class) -/

/-- Number of entries of an association list whose key equals `k`. -/
def countKey {β : Type} (k : String) (l : List (String × β)) : Nat :=
  (l.filter (fun p => p.1 == k)).length

/-- Remove the first entry with key `k` (model of `Map.delete`). -/
def eraseKey {β : Type} (k : String) (l : List (String × β)) : List (String × β) :=
  l.eraseP (fun p => p.1 == k)

/-- Set key `k` to `v` (model of `Map.set`): any previous entry for `k` is shadowed. -/
def setEntry {β : Type} (l : List (String × β)) (k : String) (v : β) : List (String × β) :=
  (k, v) :: eraseKey k l

theorem lookup_of_countKey_zero {β : Type} (k : String) (l : List (String × β))
    (h : countKey k l = 0) : l.lookup k = none := by
  induction l with
  | nil => rfl
  | cons p t ih =>
    obtain ⟨a, b⟩ := p
    unfold countKey at h
    rw [List.filter_cons] at h
    by_cases hk : a = k
    · subst hk
      simp at h
    · have hpk : ((a, b).1 == k) = false := beq_false_of_ne hk
      rw [hpk] at h
      simp only [Bool.false_eq_true, if_false] at h
      rw [List.lookup_cons]
      have hkp : (k == a) = false := beq_false_of_ne (Ne.symm hk)
      rw [hkp]
      exact ih h

/-! ### JS string primitives

The string operations of the source are modelled by structural recursion over
the character list of the string, mirroring the JS operations character by
character: `trim` strips whitespace from both ends, `toLowerCase` lower-cases
each character (ASCII range, as `Char.toLower`), `startsWith`/`endsWith` are
plain affix tests, and `split("@")[0]` is the segment before the first `'@'`. -/

/-- Model of JS `s.toLowerCase()`. -/
def jsToLower (s : String) : String :=
  ⟨s.data.map Char.toLower⟩

/-- Model of JS `s.trim()`. -/
def jsTrim (s : String) : String :=
  ⟨((s.data.dropWhile Char.isWhitespace).reverse.dropWhile
      Char.isWhitespace).reverse⟩

/-- Model of JS `s.startsWith(p)`. -/
def jsStartsWith (s p : String) : Bool :=
  p.data.isPrefixOf s.data

/-- Model of JS `s.endsWith(p)`. -/
def jsEndsWith (s p : String) : Bool :=
  p.data.isSuffixOf s.data

/-- Phone of a JID: the source writes `jid.split("@")[0]`, the segment before
the first `'@'` (the whole string when no `'@'` occurs). -/
def phoneOf (jid : String) : String :=
  ⟨jid.data.takeWhile (fun c => c != '@')⟩

/-! ### Operator authentication (`isUserAuthenticated`, part_000 lines 242–259)

The class stores `authenticatedUsers : Map userId ({authenticated, timestamp})`,
`authTimeout = 24*60*60*1000` ms and a static `sudoUsers : Set String` built
from configuration. Timestamps are JS epoch-millisecond numbers, modelled as
`Int`. -/

/-- Value stored in `authenticatedUsers` (part_000 line 36 and 263–266). -/
structure AuthData where
  authenticated : Bool
  timestamp : Int
deriving DecidableEq, Repr

/-- Millisecond timeout from part_000 line 37: 24 hours. -/
def authTimeout : Int := 24 * 60 * 60 * 1000

/-- Model of `isUserAuthenticated(userId)` (part_000 lines 242–259). It returns
the boolean answer together with the `authenticatedUsers` table after the call,
because the expiry branch deletes the entry as a side effect. The source method
reads or writes no other field of the class. -/
def isUserAuthenticated (sudoUsers : List String) (now : Int)
    (users : List (Nat × AuthData)) (userId : Nat) :
    Bool × List (Nat × AuthData) :=
  if sudoUsers.contains (toString userId) then
    (true, users)
  else
    match users.lookup userId with
    | none => (false, users)
    | some authData =>
      if now - authData.timestamp > authTimeout then
        (false, users.eraseP (fun p => p.1 == userId))
      else
        (authData.authenticated, users)

/-! ### Content filters (part_000 lines 232–240, 637–663; bridge.js 1141–1163)

`filters` is an insertion-ordered Set of strings. `handleTelegramText` trims
the incoming text, lower-cases it, and blocks (reaction 🚫, no Source send)
when the lowered text starts with any filter word; otherwise the trimmed text
(spoiler-wrapped when a spoiler entity is present) is sent to the Source. -/

/-- Outcome of `handleTelegramText`: either the message was blocked by the
filter word carried in the constructor (the source sets a 🚫 reaction and
returns without any Source send), or the body was sent to the Source. -/
inductive TgTextResult where
  | blocked (word : String)
  | sent (body : String)
deriving DecidableEq, Repr

/-- Whether the result is a filter block. -/
def TgTextResult.isBlocked : TgTextResult → Bool
  | .blocked _ => true
  | .sent _ => false

/-- Model of `Set.add` on the insertion-ordered filter set (part_000 line 233). -/
def addFilter (filters : List String) (word : String) : List String :=
  if filters.contains word then filters else filters ++ [word]

/-- Model of `clearFilters` (part_000 lines 237–240): the set becomes empty. -/
def clearFilters : List String := []

/-- Model of the filter API entry `handleAddFilter` (bridge.js lines 1141–1149):
the argument words are joined and lower-cased before `addFilter`. -/
def apiAddFilter (filters : List String) (word : String) : List String :=
  addFilter filters (jsToLower word)

/-- Model of `handleTelegramText(msg, jid)` (part_000 lines 637–663).
`text` is `msg.text`, `spoiler` is whether a spoiler entity is present. -/
def handleTelegramText (filters : List String) (text : String) (spoiler : Bool) :
    TgTextResult :=
  let originalText := jsTrim text
  let textLower := jsToLower originalText
  match filters.find? (fun word => jsStartsWith textLower word) with
  | some word => .blocked word
  | none => .sent (if spoiler then "🫥 " ++ originalText else originalText)

/-! ### Contact directory merge (part_000 lines 1206–1253, 2061–2106, 2108–2146)

The contact directory is `contactMappings : Map phone name`. Three code paths
write to it: `syncContacts` (name / notify / verifiedName priority chain), the
`contacts.update` event handler, and the `contacts.upsert` event handler.
Optional string fields of the transport's contact records are modelled as
`Option String`; the JS truthiness test on a string is `isSome` together with
nonemptiness (the empty string is falsy). -/

/-- Contact record delivered by the Source transport. -/
structure WAContact where
  id : String
  name : Option String
  notify : Option String
  verifiedName : Option String
deriving DecidableEq, Repr

/-- Truthiness of an optional JS string: present and nonempty. -/
def truthy : Option String → Bool
  | none => false
  | some s => s ≠ ""

/-- Modelled from the spec: a placeholder name is any name equal to the phone
number, prefixed with "+", or shorter than 3 characters (spec §3,
ContactDirectory entry). Used only to compare the code's conditions against
the spec's wording. -/
def isPlaceholderName (name phone : String) : Bool :=
  name == phone || jsStartsWith name "+" || name.length < 3

/-- The three checks the source applies to `contact.name` and `contact.notify`
before accepting a name (`!== phone`, no leading "+", `length > 2`); they
appear verbatim in `syncContacts` and in both contact event handlers. -/
def realContactName (n phone : String) : Bool :=
  n != phone && !(jsStartsWith n "+") && n.length > 2

theorem realContactName_eq_not_placeholder (n phone : String) :
    realContactName n phone = !(isPlaceholderName n phone) := by
  unfold realContactName isPlaceholderName
  have hl : decide (n.length > 2) = !decide (n.length < 3) := by
    by_cases h3 : n.length < 3
    · have h4 : ¬ (n.length > 2) := by omega
      simp [h3, h4]
    · have h4 : n.length > 2 := by omega
      simp [h3, h4]
  simp only [bne, Bool.not_or, hl]

/-- Name picked by one iteration of the `syncContacts` loop (part_000 lines
1226–1237): `contact.name` if it passes all three checks, else
`contact.notify` under the same checks, else `contact.verifiedName` — whose
condition omits the `startsWith("+")` check. -/
def pickSyncName (phone : String) (c : WAContact) : Option String :=
  if truthy c.name && realContactName (c.name.getD "") phone then
    c.name
  else if truthy c.notify && realContactName (c.notify.getD "") phone then
    c.notify
  else if truthy c.verifiedName &&
      (c.verifiedName.getD "" != phone && (c.verifiedName.getD "").length > 2) then
    c.verifiedName
  else
    none

/-- One iteration of the `syncContacts` loop (part_000 lines 1220–1246) on the
directory: skip empty ids and the status broadcast, otherwise write the picked
name when it differs from the existing entry. -/
def syncContactsStep (dir : List (String × String)) (c : WAContact) :
    List (String × String) :=
  if c.id == "" || c.id == "status@broadcast" then dir
  else
    let phone := phoneOf c.id
    match pickSyncName phone c with
    | none => dir
    | some contactName =>
      if dir.lookup phone == some contactName then dir
      else setEntry dir phone contactName

/-- One iteration of the `contacts.update` handler loop (part_000 lines
2064–2091) restricted to its directory effect. -/
def contactsUpdateStep (dir : List (String × String)) (c : WAContact) :
    List (String × String) :=
  if c.id == "" then dir
  else
    let phone := phoneOf c.id
    if truthy c.name && realContactName (c.name.getD "") phone &&
        dir.lookup phone != c.name then
      setEntry dir phone (c.name.getD "")
    else dir

/-- One iteration of the `contacts.upsert` handler loop (part_000 lines
2111–2137) restricted to its directory effect: note the extra
`!contactMappings.has(phone)` clause — an existing entry is never replaced. -/
def contactsUpsertStep (dir : List (String × String)) (c : WAContact) :
    List (String × String) :=
  if c.id == "" then dir
  else
    let phone := phoneOf c.id
    if truthy c.name && realContactName (c.name.getD "") phone &&
        (dir.lookup phone).isNone then
      setEntry dir phone (c.name.getD "")
    else dir

/-! ### Inbound group text prefix (part_000 lines 360–369)

In `syncMessage`, a plain-text message in a group chat (`sender` ends with
"@g.us") authored by a participant other than the chat itself is prefixed with
the resolved sender name: the contact directory entry for the participant's
phone, falling back to the phone itself. -/

/-- Body forwarded to the Sink topic by the plain-text branch of `syncMessage`. -/
def syncMessageTextBody (contactMappings : List (String × String))
    (sender participant text : String) : String :=
  if jsEndsWith sender "@g.us" && participant != sender then
    let senderPhone := phoneOf participant
    let senderName := (contactMappings.lookup senderPhone).getD senderPhone
    "👤 " ++ senderName ++ ":\n" ++ text
  else text

/-! ### Read-receipt queue and flush timers (part_000 lines 1554–1582)

`messageQueue : Map chatJid (List messageKey)` accumulates keys;
`queueMessageForReadReceipt` appends the key and schedules a `setTimeout` of
2000 ms calling `processReadReceipts(chatJid)`. The source never stores nor
cancels these timeout handles, so every enqueue leaves its own live timer.
`processReadReceipts` returns without any call when the queue for the chat is
absent or empty, otherwise issues one batched `readMessages` call with the
whole queue and then resets the queue to `[]`. Message keys are modelled as
`Nat`, absolute times as `Nat` milliseconds. -/

/-- Read-receipt coordinator state: the per-chat queue, the multiset of live
scheduled flush timers as (chat, fire time) pairs, and the list of batched
`readMessages` calls issued so far (each element is one call's batch). -/
structure RRState where
  messageQueue : List (String × List Nat)
  timers : List (String × Nat)
  readCalls : List (List Nat)
deriving DecidableEq, Repr

/-- Coordinator state at startup: empty maps, no timers, no calls. -/
def RRState.initial : RRState := ⟨[], [], []⟩

/-- Model of `queueMessageForReadReceipt(chatJid, messageKey)` (part_000 lines
1554–1566) at absolute time `now`, with the `readReceipts` feature flag. -/
def queueMessageForReadReceipt (featureOn : Bool) (now : Nat) (s : RRState)
    (chatJid : String) (messageKey : Nat) : RRState :=
  if !featureOn then s
  else
    let q := (s.messageQueue.lookup chatJid).getD []
    { s with
      messageQueue := setEntry s.messageQueue chatJid (q ++ [messageKey])
      timers := s.timers ++ [(chatJid, now + 2000)] }

/-- Model of `processReadReceipts(chatJid)` (part_000 lines 1568–1582): the
body a firing timer runs. -/
def processReadReceipts (s : RRState) (chatJid : String) : RRState :=
  match (s.messageQueue.lookup chatJid).getD [] with
  | [] => s
  | m :: ms =>
    { s with
      readCalls := s.readCalls ++ [m :: ms]
      messageQueue := setEntry s.messageQueue chatJid [] }

/-- One scheduled flush timer for `chatJid` fires: its handle leaves the timer
multiset and its callback `processReadReceipts(chatJid)` runs. -/
def fireReadReceiptTimer (s : RRState) (chatJid : String) : RRState :=
  processReadReceipts { s with timers := s.timers.eraseP (fun p => p.1 == chatJid) }
    chatJid

/-! ### Heal-and-retry on "message thread not found"

Two code paths recover from a Sink send that fails with the distinguished
"message thread not found" error: `sendSimpleMessage` (part_000 lines 528–572)
and the inner `sendMedia` closure of `handleWhatsAppMedia` (part_000 lines
1101–1121). Sink responses, the per-call mapping state and an event trace are
modelled explicitly; the outcome of each Sink send attempt and of each
`getOrCreateTopic` recreation is supplied by environment lists consumed in
order, so every interleaving of failures can be examined. -/

/-- Response of the Sink to one send attempt. -/
inductive SinkResp where
  | ok (msgId : Nat)
  | threadNotFound
  | otherErr
deriving DecidableEq, Repr

/-- Mapping state touched by the healing paths. -/
structure HealState where
  chatMappings : List (String × Nat)
  profilePicCache : List (String × String)
  dbSaves : Nat
deriving DecidableEq, Repr

/-- Observable events of a healing run, in order. -/
inductive HealEv where
  | sendAttempt (topicId : Nat)
  | mappingDeleted (jid : String)
  | picDeleted (jid : String)
  | saved
  | recreateTopic (jid : String)
deriving DecidableEq, Repr

/-- Whether an event is a Sink send attempt. -/
def HealEv.isSend : HealEv → Bool
  | .sendAttempt _ => true
  | _ => false

/-- Whether an event is a stale-mapping deletion. -/
def HealEv.isMappingDelete : HealEv → Bool
  | .mappingDeleted _ => true
  | _ => false

/-- Whether an event is a topic recreation call. -/
def HealEv.isRecreate : HealEv → Bool
  | .recreateTopic _ => true
  | _ => false

/-- Model of `findWhatsAppJidByTopic(topicId)` (part_000 lines 1195–1204). -/
def findWhatsAppJidByTopic (chatMappings : List (String × Nat)) (topicId : Nat) :
    Option String :=
  (chatMappings.find? (fun p => p.2 == topicId)).map (·.1)

/-- Model of `sendSimpleMessage(topicId, text, sender)` (part_000 lines
528–572). `resp1` is the Sink's response to the first send, `resp2` to the
retried send after healing, and `createRes` the result of the
`getOrCreateTopic` recreation (`none` = creation failed). The function returns
the message id result, the mapping state after the call and the event trace.
On a "thread not found" first response the stale mapping and cached profile
picture are deleted, the state is persisted, the topic is recreated and the
send is retried exactly once inside a try/catch whose catch returns null: a
failure of the retried send — of any class, including a second "thread not
found" — is not retried again. -/
def sendSimpleMessage (resp1 resp2 : SinkResp) (createRes : Option Nat)
    (s : HealState) (topicId : Nat) :
    Option Nat × HealState × List HealEv :=
  match resp1 with
  | .ok m => (some m, s, [.sendAttempt topicId])
  | .otherErr => (none, s, [.sendAttempt topicId])
  | .threadNotFound =>
    match findWhatsAppJidByTopic s.chatMappings topicId with
    | none => (none, s, [.sendAttempt topicId])
    | some jid =>
      let s1 : HealState :=
        { chatMappings := eraseKey jid s.chatMappings
          profilePicCache := eraseKey jid s.profilePicCache
          dbSaves := s.dbSaves + 1 }
      let evs := [HealEv.sendAttempt topicId, .mappingDeleted jid, .picDeleted jid,
                  .saved, .recreateTopic jid]
      match createRes with
      | none => (none, s1, evs)
      | some newTopicId =>
        let s2 : HealState :=
          { s1 with chatMappings := setEntry s1.chatMappings jid newTopicId
                    dbSaves := s1.dbSaves + 1 }
        match resp2 with
        | .ok m => (some m, s2, evs ++ [.sendAttempt newTopicId])
        | _ => (none, s2, evs ++ [.sendAttempt newTopicId])

/-- Model of the inner `sendMedia(topicIdToUse)` closure of
`handleWhatsAppMedia` (part_000 lines 1030–1121), whose catch block on
"thread not found" deletes the mapping, recreates the topic and then calls
`sendMedia(newTopicId)` again — a recursive self-call, not a single guarded
retry. `sender` is `whatsappMsg.key.remoteJid`. `resps` supplies the Sink's
response to each successive send attempt and `creates` the result of each
successive `getOrCreateTopic` recreation. -/
def sendMediaLoop (s : HealState) (sender : String) (topicId : Nat) :
    List SinkResp → List (Option Nat) → HealState × List HealEv
  | [], _ => (s, [])
  | .ok _ :: _, _ => (s, [.sendAttempt topicId])
  | .otherErr :: _, _ => (s, [.sendAttempt topicId])
  | .threadNotFound :: rest, creates =>
    let s1 : HealState :=
      { chatMappings := eraseKey sender s.chatMappings
        profilePicCache := eraseKey sender s.profilePicCache
        dbSaves := s.dbSaves + 1 }
    let evs := [HealEv.sendAttempt topicId, .mappingDeleted sender,
                .picDeleted sender, .saved, .recreateTopic sender]
    match creates with
    | [] => (s1, evs)
    | none :: _ => (s1, evs)
    | some newTopicId :: crest =>
      let s2 : HealState :=
        { s1 with chatMappings := setEntry s1.chatMappings sender newTopicId
                  dbSaves := s1.dbSaves + 1 }
      let (s3, tr) := sendMediaLoop s2 sender newTopicId rest crest
      (s3, evs ++ tr)

/-! ### Topic lifecycle: `getOrCreateTopic` (part_000 lines 376–452)

The host runtime is single-threaded and cooperative: code between two `await`
points runs atomically. In `getOrCreateTopic`, the check of `chatMappings`,
the check of `creatingTopics`, the synchronous prefix of the immediately
invoked async creation body (which suspends at its first `await` — the group
metadata fetch or the create-topic call — or, when the chat id is not
configured, runs to completion returning null before the `try` block), and the
`creatingTopics.set` all execute with no intervening suspension, so they form
one atomic step per caller. The creation body's remaining work — exactly one
Sink `createForumTopic` call, then on success `chatMappings.set` plus persist,
and in the `finally` clause `creatingTopics.delete` — is a second atomic step,
after which the shared promise is resolved and every awaiting caller observes
its value. Promises are numbered; a promise table entry `none` is a pending
promise and `some v` a promise resolved with `v : Option Nat` (the topic id,
or `null` on failure). -/

/-- Bridge state for the topic lifecycle model. `createCalls` counts the Sink
`createForumTopic` calls issued so far. -/
structure BridgeState where
  chatMappings : List (String × Nat)
  creatingTopics : List (String × Nat)
  promises : List (Nat × Option (Option Nat))
  nextPromiseId : Nat
  createCalls : Nat
  dbSaves : Nat
  configOk : Bool
deriving DecidableEq, Repr

/-- What one caller of `getOrCreateTopic` obtains from its synchronous step. -/
inductive StartResult where
  | mapped (topicId : Nat)
  | joined (pid : Nat)
  | started (pid : Nat)
  | configFailed (pid : Nat)
deriving DecidableEq, Repr

/-- Atomic synchronous step of one `getOrCreateTopic(chatJid, …)` call
(part_000 lines 376–391 and 450–451): return the live mapping if present;
else join the in-flight creation promise if present; else start a creation —
with a configured chat id this registers a fresh pending promise in
`creatingTopics`; with a missing chat id the body already resolved to null
before its `try`, so an already-resolved promise is registered, and because
the early `return` precedes the `try`/`finally`, it is never deleted. -/
def getOrCreateTopicStart (s : BridgeState) (chatJid : String) :
    StartResult × BridgeState :=
  match s.chatMappings.lookup chatJid with
  | some topicId => (.mapped topicId, s)
  | none =>
    match s.creatingTopics.lookup chatJid with
    | some pid => (.joined pid, s)
    | none =>
      let pid := s.nextPromiseId
      if s.configOk then
        (.started pid,
          { s with
            creatingTopics := (chatJid, pid) :: s.creatingTopics
            promises := (pid, none) :: s.promises
            nextPromiseId := pid + 1 })
      else
        (.configFailed pid,
          { s with
            creatingTopics := (chatJid, pid) :: s.creatingTopics
            promises := (pid, some none) :: s.promises
            nextPromiseId := pid + 1 })

/-- Resolve promise `pid` with value `v`. -/
def setPromise (promises : List (Nat × Option (Option Nat))) (pid : Nat)
    (v : Option Nat) : List (Nat × Option (Option Nat)) :=
  promises.map (fun q => if q.1 == pid then (q.1, some v) else q)

/-- Atomic completion step of the pending creation body for `chatJid`
(part_000 lines 393–448): the single Sink `createForumTopic` call returns
`outcome` (`some topicId` on success, `none` when the call failed and the
catch block returned null). On success the mapping is stored and persisted; in
both cases the `finally` clause removes the `creatingTopics` entry, and the
promise resolves to `outcome`. When no creation is pending for `chatJid` the
step does nothing. -/
def creationComplete (s : BridgeState) (chatJid : String) (outcome : Option Nat) :
    BridgeState :=
  match s.creatingTopics.lookup chatJid with
  | none => s
  | some pid =>
    let s1 := { s with createCalls := s.createCalls + 1 }
    let s2 :=
      match outcome with
      | some topicId =>
        { s1 with
          chatMappings := setEntry s1.chatMappings chatJid topicId
          dbSaves := s1.dbSaves + 1 }
      | none => s1
    { s2 with
      promises := setPromise s2.promises pid outcome
      creatingTopics := eraseKey chatJid s2.creatingTopics }

/-- Value a caller holding `r` observes once it awaits: `none` while the
promise is still pending, `some v` once resolved (a `mapped` result is
immediate). -/
def resultOf (s : BridgeState) : StartResult → Option (Option Nat)
  | .mapped topicId => some (some topicId)
  | .joined pid => (s.promises.lookup pid).getD none
  | .started pid => (s.promises.lookup pid).getD none
  | .configFailed pid => (s.promises.lookup pid).getD none

/-- Issue `n` concurrent `getOrCreateTopic` calls for the same `chatJid`, all
before any creation body completes; returns the final state and each caller's
`StartResult` in call order. -/
def runStarts (s : BridgeState) (chatJid : String) : Nat → BridgeState × List StartResult
  | 0 => (s, [])
  | n + 1 =>
    let (r, s1) := getOrCreateTopicStart s chatJid
    let (s2, rs) := runStarts s1 chatJid n
    (s2, r :: rs)

/-! ## Claims -/

/-- C2: for every conversation identifier with a live mapping,
`getOrCreateTopic` returns the mapped topicId immediately from the first
(suspension-free) step — the returned state is the input state unchanged, so
no creation promise is registered, no Sink create-topic call and no network
call of any kind is reachable while the mapping is live. -/
theorem getOrCreateTopic_live_mapping_immediate (s : BridgeState)
    (chatJid : String) (topicId : Nat)
    (h : s.chatMappings.lookup chatJid = some topicId) :
    getOrCreateTopicStart s chatJid = (.mapped topicId, s) := by
  unfold getOrCreateTopicStart
  rw [h]

/-- Witness for `getOrCreateTopic_live_mapping_immediate` at a concrete state
holding a live mapping. -/
theorem getOrCreateTopic_live_mapping_immediate_witness :
    getOrCreateTopicStart
      ⟨[("12345@s.whatsapp.net", 77)], [], [], 0, 0, 0, true⟩
      "12345@s.whatsapp.net"
      = (.mapped 77, ⟨[("12345@s.whatsapp.net", 77)], [], [], 0, 0, 0, true⟩) :=
  getOrCreateTopic_live_mapping_immediate _ _ 77 (by decide)

/-- C5: a non-privileged operator whose record was written at time `T` with
the authenticated flag set is accepted by `isUserAuthenticated` at
`T + authTimeout − 1` and rejected at `T + authTimeout + 1`
(`authTimeout` = 24 h in milliseconds); an operator in the configured sudo
set is accepted at every timestamp, whatever the table holds. -/
theorem auth_expiry (sudoUsers : List String) (users : List (Nat × AuthData))
    (userId : Nat) (T : Int)
    (hrec : users.lookup userId = some ⟨true, T⟩)
    (hnotsudo : sudoUsers.contains (toString userId) = false) :
    (isUserAuthenticated sudoUsers (T + authTimeout - 1) users userId).1 = true ∧
    (isUserAuthenticated sudoUsers (T + authTimeout + 1) users userId).1 = false ∧
    ∀ (su : List String) (now : Int) (us : List (Nat × AuthData)) (uid : Nat),
      su.contains (toString uid) = true →
      (isUserAuthenticated su now us uid).1 = true := by
  refine ⟨?_, ?_, ?_⟩
  · unfold isUserAuthenticated
    rw [hnotsudo, hrec]
    have hc : ¬ (T + authTimeout - 1 - AuthData.timestamp ⟨true, T⟩ > authTimeout) := by
      simp only [AuthData.timestamp]
      omega
    simp [hc]
  · unfold isUserAuthenticated
    rw [hnotsudo, hrec]
    have hc : T + authTimeout + 1 - AuthData.timestamp ⟨true, T⟩ > authTimeout := by
      simp only [AuthData.timestamp]
      omega
    simp [hc]
  · intro su now us uid hsu
    unfold isUserAuthenticated
    rw [hsu]
    rfl

/-- Witness for `auth_expiry`: operator 42 authenticated at T = 1000, not in
the sudo set; operator 7 in the sudo set. -/
theorem auth_expiry_witness :
    (isUserAuthenticated ["7"] (1000 + authTimeout - 1)
        [(42, ⟨true, 1000⟩)] 42).1 = true ∧
    (isUserAuthenticated ["7"] (1000 + authTimeout + 1)
        [(42, ⟨true, 1000⟩)] 42).1 = false ∧
    (isUserAuthenticated ["7"] 0 [] 7).1 = true := by
  have h := auth_expiry ["7"] [(42, ⟨true, 1000⟩)] 42 1000 (by decide) (by decide)
  exact ⟨h.1, h.2.1, h.2.2 ["7"] 0 [] 7 (by decide)⟩

/-- Condition under which the claim says the authentication check mutates
state, written from the claim's words: the operator is not privileged and its
record is older than `authTimeout`. -/
def expiredNonSudo (sudoUsers : List String) (now : Int)
    (users : List (Nat × AuthData)) (userId : Nat) : Bool :=
  !sudoUsers.contains (toString userId) &&
    (match users.lookup userId with
     | none => false
     | some a => now - a.timestamp > authTimeout)

/-- C10: `isUserAuthenticated` deletes the operator's record exactly when the
operator is non-privileged and its record is older than `authTimeout`; for a
privileged operator, an absent record, or an unexpired record the table is
returned unchanged. The deletion removes only entries keyed by that operator.
(The source method touches no field of the class other than
`authenticatedUsers`, which is why the model's state is exactly this table.) -/
theorem auth_check_frame (sudoUsers : List String) (now : Int)
    (users : List (Nat × AuthData)) (userId : Nat) :
    (isUserAuthenticated sudoUsers now users userId).2 =
      (if expiredNonSudo sudoUsers now users userId then
        users.eraseP (fun p => p.1 == userId)
      else users) := by
  unfold isUserAuthenticated expiredNonSudo
  cases hs : sudoUsers.contains (toString userId) with
  | true => simp
  | false =>
    cases hl : users.lookup userId with
    | none => simp
    | some a =>
      by_cases he : now - a.timestamp > authTimeout
      · simp [he]
      · simp [he]

/-- C7: in a group conversation (`sender` ends with "@g.us"), a plain-text
message authored by a participant different from the conversation identifier
is forwarded with a prefix carrying the sender's resolved display name: the
contact-directory entry for the participant's phone, falling back to the
phone itself. -/
theorem group_text_sender_name (contactMappings : List (String × String))
    (sender participant text : String)
    (hg : jsEndsWith sender "@g.us" = true) (hp : participant ≠ sender) :
    syncMessageTextBody contactMappings sender participant text =
      "👤 " ++
        ((contactMappings.lookup (phoneOf participant)).getD (phoneOf participant))
        ++ ":\n" ++ text := by
  unfold syncMessageTextBody
  have hcond : (jsEndsWith sender "@g.us" && participant != sender) = true := by
    simp [hg, bne_iff_ne, hp]
  rw [hcond]
  simp

/-- Witness for `group_text_sender_name`: a known contact gets its directory
name, an unknown participant falls back to its phone. -/
theorem group_text_sender_name_witness :
    syncMessageTextBody [("123", "Alice")] "88@g.us" "123@s.whatsapp.net" "hi"
      = "👤 Alice:\nhi" ∧
    syncMessageTextBody [("123", "Alice")] "88@g.us" "456@s.whatsapp.net" "hi"
      = "👤 456:\nhi" := by
  constructor
  · have h := group_text_sender_name [("123", "Alice")] "88@g.us"
      "123@s.whatsapp.net" "hi" (by decide) (by decide)
    rw [h]
    rfl
  · have h := group_text_sender_name [("123", "Alice")] "88@g.us"
      "456@s.whatsapp.net" "hi" (by decide) (by decide)
    rw [h]
    rfl

/-- C4 counterexample: a text matching no filter is not forwarded unchanged —
`handleTelegramText` sends `msg.text.trim()`, so the unmatched text " hi "
reaches the Source as "hi", with its surrounding whitespace removed. -/
theorem filter_trim_counterexample :
    handleTelegramText [] " hi " false = .sent "hi" ∧
    TgTextResult.sent "hi" ≠ TgTextResult.sent " hi " := by
  decide

/-- C4 (amended): for every word added through the filter API (which
lower-cases it), every outbound text whose trimmed, lower-cased body starts
with that word is blocked — no Source send occurs and the originating message
is marked with a 🚫 reaction; every text matching no filter word is forwarded
with its body the trimmed original text, otherwise unaltered (spoiler-wrapped
only when a spoiler entity is present); and after `clearFilters` no text is
blocked. -/
theorem filter_law (filters : List String) (word text : String) (spoiler : Bool) :
    (jsStartsWith (jsToLower (jsTrim text)) (jsToLower word) = true →
      (handleTelegramText (apiAddFilter filters word) text spoiler).isBlocked
        = true) ∧
    ((∀ w ∈ filters, jsStartsWith (jsToLower (jsTrim text)) w = false) →
      handleTelegramText filters text spoiler
        = .sent (if spoiler then "🫥 " ++ jsTrim text else jsTrim text)) ∧
    (handleTelegramText clearFilters text spoiler).isBlocked = false := by
  refine ⟨?_, ?_, ?_⟩
  · intro hstart
    have hmem : jsToLower word ∈ apiAddFilter filters word := by
      unfold apiAddFilter addFilter
      by_cases hc : filters.contains (jsToLower word)
      · rw [if_pos hc]
        exact List.mem_of_elem_eq_true hc
      · rw [if_neg hc]
        exact List.mem_append_right _ (List.mem_singleton.mpr rfl)
    unfold handleTelegramText
    cases hfind : (apiAddFilter filters word).find?
        (fun w => jsStartsWith (jsToLower (jsTrim text)) w) with
    | some w => simp [hfind, TgTextResult.isBlocked]
    | none =>
      exfalso
      exact (List.find?_eq_none.mp hfind _ hmem) hstart
  · intro hnone
    have hfind : filters.find? (fun w => jsStartsWith (jsToLower (jsTrim text)) w) = none :=
      List.find?_eq_none.mpr (fun w hw => by simp [hnone w hw])
    simp only [handleTelegramText]
    rw [hfind]
  · rfl

/-- Witness for `filter_law`: adding "Spam" blocks "  SPAM alert ", the
unmatched text " hello " is forwarded as its trimmed body, and with a cleared
filter set nothing is blocked. -/
theorem filter_law_witness :
    (handleTelegramText (apiAddFilter [] "Spam") "  SPAM alert " false).isBlocked
      = true ∧
    handleTelegramText ["spam"] " hello " false = .sent "hello" ∧
    (handleTelegramText clearFilters "spam" false).isBlocked = false := by
  refine ⟨(filter_law [] "Spam" "  SPAM alert " false).1 (by decide), ?_,
    (filter_law [] "x" "spam" false).2.2⟩
  have h := (filter_law ["spam"] "x" " hello " false).2.1 (by decide)
  rw [h]
  decide

/-- C6 counterexample: the claim fails on the code in both directions.
First, the `contacts.upsert` handler never replaces an existing entry (its
condition requires `!contactMappings.has(phone)`), so the valid
non-placeholder update "Alice Smith" does not overwrite the prior placeholder
entry "+1". Second, the `verifiedName` branch of `syncContacts` omits the
`startsWith("+")` check, so the placeholder verifiedName "+ab" overwrites the
existing non-placeholder name "Alice". -/
theorem contact_merge_counterexample :
    isPlaceholderName "+1" "123" = true ∧
    isPlaceholderName "Alice Smith" "123" = false ∧
    contactsUpsertStep [("123", "+1")]
      ⟨"123@s.whatsapp.net", some "Alice Smith", none, none⟩ = [("123", "+1")] ∧
    isPlaceholderName "+ab" "123" = true ∧
    isPlaceholderName "Alice" "123" = false ∧
    syncContactsStep [("123", "Alice")]
      ⟨"123@s.whatsapp.net", none, none, some "+ab"⟩ = [("123", "+ab")] := by
  decide

/-- C6 (amended): a contact update whose name is a placeholder is never
written by the `contacts.update` handler; an update carrying a valid
non-placeholder name overwrites a prior differing (in particular placeholder)
or absent entry through `contacts.update` and `syncContacts`, while
`contacts.upsert` only fills an absent entry and never replaces an existing
one; and in `syncContacts` a placeholder can be picked only from the
`verifiedName` field, whose condition checks only difference from the phone
and length > 2 (admitting "+"-prefixed names). -/
theorem contact_merge_behavior (dir : List (String × String)) (c : WAContact)
    (n : String) :
    (c.name = some n → isPlaceholderName n (phoneOf c.id) = true →
      contactsUpdateStep dir c = dir) ∧
    (c.id ≠ "" → c.name = some n → isPlaceholderName n (phoneOf c.id) = false →
      dir.lookup (phoneOf c.id) ≠ some n →
      contactsUpdateStep dir c = setEntry dir (phoneOf c.id) n) ∧
    ((dir.lookup (phoneOf c.id)).isSome = true → contactsUpsertStep dir c = dir) ∧
    (c.id ≠ "" → c.name = some n → isPlaceholderName n (phoneOf c.id) = false →
      dir.lookup (phoneOf c.id) = none →
      contactsUpsertStep dir c = setEntry dir (phoneOf c.id) n) ∧
    (pickSyncName (phoneOf c.id) c = some n →
      isPlaceholderName n (phoneOf c.id) = true →
      c.verifiedName = some n ∧ (n != phoneOf c.id && n.length > 2) = true) ∧
    (c.id ≠ "" → c.id ≠ "status@broadcast" →
      pickSyncName (phoneOf c.id) c = some n →
      dir.lookup (phoneOf c.id) ≠ some n →
      syncContactsStep dir c = setEntry dir (phoneOf c.id) n) := by
  refine ⟨?_, ?_, ?_, ?_, ?_, ?_⟩
  · intro hn hph
    unfold contactsUpdateStep
    by_cases hid : (c.id == "") = true
    · rw [if_pos hid]
    · rw [if_neg hid]
      have hreal : realContactName n (phoneOf c.id) = false := by
        rw [realContactName_eq_not_placeholder, hph]
        rfl
      rw [hn]
      simp [hreal]
  · intro hid hn hph hne
    unfold contactsUpdateStep
    rw [if_neg (by simp [hid])]
    have hreal : realContactName n (phoneOf c.id) = true := by
      rw [realContactName_eq_not_placeholder, hph]
      rfl
    have hlen : ¬ (n.length < 3) := by
      have := hph
      unfold isPlaceholderName at this
      simp only [Bool.or_eq_false_iff] at this
      simpa using this.2
    have htr : truthy (some n) = true := by
      unfold truthy
      have : n ≠ "" := by
        intro he
        rw [he] at hlen
        simp at hlen
      simpa using this
    have hbne : (dir.lookup (phoneOf c.id) != some n) = true := by
      simpa [bne_iff_ne] using hne
    rw [hn]
    simp [htr, hreal, hbne]
  · intro hsome
    unfold contactsUpsertStep
    by_cases hid : (c.id == "") = true
    · rw [if_pos hid]
    · rw [if_neg hid]
      have : (dir.lookup (phoneOf c.id)).isNone = false := by
        cases h : dir.lookup (phoneOf c.id)
        · rw [h] at hsome
          simp at hsome
        · rfl
      simp [this]
  · intro hid hn hph hnone
    unfold contactsUpsertStep
    rw [if_neg (by simp [hid])]
    have hreal : realContactName n (phoneOf c.id) = true := by
      rw [realContactName_eq_not_placeholder, hph]
      rfl
    have hlen : ¬ (n.length < 3) := by
      have := hph
      unfold isPlaceholderName at this
      simp only [Bool.or_eq_false_iff] at this
      simpa using this.2
    have htr : truthy (some n) = true := by
      unfold truthy
      have : n ≠ "" := by
        intro he
        rw [he] at hlen
        simp at hlen
      simpa using this
    rw [hn]
    simp [htr, hreal, hnone]
  · intro hpick hph
    unfold pickSyncName at hpick
    by_cases h1 : (truthy c.name && realContactName (c.name.getD "") (phoneOf c.id))
        = true
    · rw [if_pos h1] at hpick
      exfalso
      have hr : realContactName (c.name.getD "") (phoneOf c.id) = true :=
        (Bool.and_eq_true _ _ ▸ h1).2
      rw [hpick] at hr
      simp [realContactName_eq_not_placeholder, hph] at hr
    · rw [if_neg h1] at hpick
      by_cases h2 : (truthy c.notify && realContactName (c.notify.getD "")
          (phoneOf c.id)) = true
      · rw [if_pos h2] at hpick
        exfalso
        have hr : realContactName (c.notify.getD "") (phoneOf c.id) = true :=
          (Bool.and_eq_true _ _ ▸ h2).2
        rw [hpick] at hr
        simp [realContactName_eq_not_placeholder, hph] at hr
      · rw [if_neg h2] at hpick
        by_cases h3 : (truthy c.verifiedName &&
            (c.verifiedName.getD "" != phoneOf c.id &&
              decide ((c.verifiedName.getD "").length > 2))) = true
        · rw [if_pos h3] at hpick
          refine ⟨hpick, ?_⟩
          have hcond := (Bool.and_eq_true _ _ ▸ h3).2
          rw [hpick] at hcond
          simpa using hcond
        · rw [if_neg h3] at hpick
          exact absurd hpick (by simp)
  · intro hid hst hpick hne
    simp only [syncContactsStep]
    rw [if_neg (by simp [hid, hst])]
    rw [hpick]
    have hbeq : (dir.lookup (phoneOf c.id) == some n) = false := by
      simpa using hne
    simp [hbeq]

/-- Witness for `contact_merge_behavior`: the valid name "Bob Jones"
overwrites the placeholder entry "+1" through `contacts.update` and
`syncContacts`, fills an absent entry through `contacts.upsert`, and an
existing entry blocks `contacts.upsert`. -/
theorem contact_merge_behavior_witness :
    contactsUpdateStep [("123", "+1")]
      ⟨"123@s.whatsapp.net", some "Bob Jones", none, none⟩
      = [("123", "Bob Jones")] ∧
    contactsUpsertStep []
      ⟨"123@s.whatsapp.net", some "Bob Jones", none, none⟩
      = [("123", "Bob Jones")] ∧
    contactsUpsertStep [("123", "+1")]
      ⟨"123@s.whatsapp.net", some "Bob Jones", none, none⟩
      = [("123", "+1")] ∧
    syncContactsStep [("123", "+1")]
      ⟨"123@s.whatsapp.net", some "Bob Jones", none, none⟩
      = [("123", "Bob Jones")] := by
  refine ⟨?_, ?_, ?_, ?_⟩
  · have h := (contact_merge_behavior [("123", "+1")]
      ⟨"123@s.whatsapp.net", some "Bob Jones", none, none⟩ "Bob Jones").2.1
      (by decide) rfl (by decide) (by decide)
    rw [h]
    decide
  · have h := (contact_merge_behavior []
      ⟨"123@s.whatsapp.net", some "Bob Jones", none, none⟩ "Bob Jones").2.2.2.1
      (by decide) rfl (by decide) (by decide)
    rw [h]
    decide
  · exact (contact_merge_behavior [("123", "+1")]
      ⟨"123@s.whatsapp.net", some "Bob Jones", none, none⟩ "Bob Jones").2.2.1
      (by decide)
  · have h := (contact_merge_behavior [("123", "+1")]
      ⟨"123@s.whatsapp.net", some "Bob Jones", none, none⟩ "Bob Jones").2.2.2.2.2
      (by decide) (by decide) (by decide) (by decide)
    rw [h]
    decide

/-- C8 counterexample: `queueMessageForReadReceipt` never stores or cancels a
timeout handle, so after a second enqueue for the same conversation (at
t = 0 ms and t = 1000 ms) two flush timers are live — the claim's invariant
that the old timer is cancelled, leaving at most the most recent one, fails —
and both fire: the earlier one (2 s after the first enqueue) flushes both
keys, and the later one also fires, finding an empty queue. -/
theorem read_receipt_timer_counterexample :
    (queueMessageForReadReceipt true 1000
        (queueMessageForReadReceipt true 0 RRState.initial "a@s.whatsapp.net" 1)
        "a@s.whatsapp.net" 2).timers
      = [("a@s.whatsapp.net", 2000), ("a@s.whatsapp.net", 3000)] ∧
    ¬ (countKey "a@s.whatsapp.net"
        (queueMessageForReadReceipt true 1000
          (queueMessageForReadReceipt true 0 RRState.initial "a@s.whatsapp.net" 1)
          "a@s.whatsapp.net" 2).timers ≤ 1) ∧
    (fireReadReceiptTimer
        (queueMessageForReadReceipt true 1000
          (queueMessageForReadReceipt true 0 RRState.initial "a@s.whatsapp.net" 1)
          "a@s.whatsapp.net" 2)
        "a@s.whatsapp.net").readCalls = [[1, 2]] ∧
    (fireReadReceiptTimer
        (fireReadReceiptTimer
          (queueMessageForReadReceipt true 1000
            (queueMessageForReadReceipt true 0 RRState.initial "a@s.whatsapp.net" 1)
            "a@s.whatsapp.net" 2)
          "a@s.whatsapp.net")
        "a@s.whatsapp.net").readCalls = [[1, 2]] := by
  decide

/-- C8 (amended): read receipts are accumulated per conversation in an
in-memory queue, and every enqueue schedules its own single-shot flush timer
2 seconds later; no existing timer is cancelled (the source never stores the
timeout handle), so every scheduled timer fires. A firing flush acknowledges
the entire queue for the conversation in one batched `readMessages` call and
clears it, and a flush that finds an empty or absent queue makes no call and
leaves the state unchanged. -/
theorem read_receipt_behavior (s : RRState) (chatJid : String) (key : Nat)
    (now : Nat) :
    (queueMessageForReadReceipt true now s chatJid key).timers
        = s.timers ++ [(chatJid, now + 2000)] ∧
    (queueMessageForReadReceipt true now s chatJid key).messageQueue.lookup chatJid
        = some (((s.messageQueue.lookup chatJid).getD []) ++ [key]) ∧
    (queueMessageForReadReceipt true now s chatJid key).readCalls = s.readCalls ∧
    (∀ q, s.messageQueue.lookup chatJid = some q → q ≠ [] →
      processReadReceipts s chatJid =
        { s with
          readCalls := s.readCalls ++ [q]
          messageQueue := setEntry s.messageQueue chatJid [] }) ∧
    ((s.messageQueue.lookup chatJid).getD [] = [] →
      processReadReceipts s chatJid = s) := by
  refine ⟨?_, ?_, ?_, ?_, ?_⟩
  · simp [queueMessageForReadReceipt]
  · simp [queueMessageForReadReceipt, setEntry]
  · simp [queueMessageForReadReceipt]
  · intro q hq hne
    cases q with
    | nil => exact absurd rfl hne
    | cons m ms => simp [processReadReceipts, hq]
  · intro hq
    simp [processReadReceipts, hq]

/-- Witness for `read_receipt_behavior` at a concrete state: one enqueue into
an empty coordinator, a flush of a nonempty queue, and a no-op flush. -/
theorem read_receipt_behavior_witness :
    (queueMessageForReadReceipt true 0 RRState.initial "a@s.whatsapp.net" 5).timers
        = [("a@s.whatsapp.net", 2000)] ∧
    processReadReceipts ⟨[("a@s.whatsapp.net", [5])], [], []⟩ "a@s.whatsapp.net"
        = ⟨[("a@s.whatsapp.net", [])], [], [[5]]⟩ ∧
    processReadReceipts RRState.initial "a@s.whatsapp.net" = RRState.initial := by
  refine ⟨?_, ?_, ?_⟩
  · have h := (read_receipt_behavior RRState.initial "a@s.whatsapp.net" 5 0).1
    rw [h]
    rfl
  · have h := (read_receipt_behavior ⟨[("a@s.whatsapp.net", [5])], [], []⟩
      "a@s.whatsapp.net" 0 0).2.2.2.1 [5] (by decide) (by decide)
    rw [h]
    decide
  · exact (read_receipt_behavior RRState.initial "a@s.whatsapp.net" 0 0).2.2.2.2
      (by decide)

/-- C3 counterexample: in `handleWhatsAppMedia` the catch block calls the
`sendMedia` closure again after healing, so a second consecutive
"thread not found" failure IS retried again: with responses
[thread-not-found, thread-not-found, ok] the originating call performs three
send attempts, two stale-mapping deletions and two recreations, where the
claim allows one deletion, one recreation and one retried send. -/
theorem media_heal_recursion_counterexample :
    ((sendMediaLoop ⟨[("77@s.whatsapp.net", 1)], [], 0⟩ "77@s.whatsapp.net" 1
        [.threadNotFound, .threadNotFound, .ok 5] [some 10, some 11]).2.countP
      (fun e => e.isSend)) = 3 ∧
    ((sendMediaLoop ⟨[("77@s.whatsapp.net", 1)], [], 0⟩ "77@s.whatsapp.net" 1
        [.threadNotFound, .threadNotFound, .ok 5] [some 10, some 11]).2.countP
      (fun e => e.isMappingDelete)) = 2 ∧
    ((sendMediaLoop ⟨[("77@s.whatsapp.net", 1)], [], 0⟩ "77@s.whatsapp.net" 1
        [.threadNotFound, .threadNotFound, .ok 5] [some 10, some 11]).2.countP
      (fun e => e.isRecreate)) = 2 := by
  decide

/-- C3 (amended): on a "thread not found" send failure against a live
mapping, `sendSimpleMessage` performs exactly one stale-mapping deletion (with
cached profile picture), one recreation and one retried send, and a failure of
the retried send — of any class, including a second consecutive
"thread not found" — is not retried again but surfaced as a null result; the
media path `handleWhatsAppMedia`, however, heals recursively: each further
consecutive "thread not found" failure triggers another deletion, recreation
and retry of the same originating call. -/
theorem heal_retry_behavior (s : HealState) (topicId newTopicId : Nat)
    (jid sender : String) (resp2 : SinkResp) (resps : List SinkResp)
    (creates : List (Option Nat))
    (hjid : findWhatsAppJidByTopic s.chatMappings topicId = some jid) :
    ((sendSimpleMessage .threadNotFound resp2 (some newTopicId) s topicId).2.2
        = [.sendAttempt topicId, .mappingDeleted jid, .picDeleted jid, .saved,
           .recreateTopic jid, .sendAttempt newTopicId]) ∧
    ((∀ m, resp2 ≠ .ok m) →
      (sendSimpleMessage .threadNotFound resp2 (some newTopicId) s topicId).1
        = none) ∧
    ((sendMediaLoop s sender topicId (.threadNotFound :: resps)
        (some newTopicId :: creates)).2
      = [.sendAttempt topicId, .mappingDeleted sender, .picDeleted sender,
         .saved, .recreateTopic sender]
        ++ (sendMediaLoop
              { chatMappings := setEntry (eraseKey sender s.chatMappings)
                  sender newTopicId
                profilePicCache := eraseKey sender s.profilePicCache
                dbSaves := s.dbSaves + 2 }
              sender newTopicId resps creates).2) := by
  refine ⟨?_, ?_, ?_⟩
  · cases resp2 <;> simp [sendSimpleMessage, hjid]
  · intro hno
    cases resp2 with
    | ok m => exact absurd rfl (hno m)
    | threadNotFound => simp [sendSimpleMessage, hjid]
    | otherErr => simp [sendSimpleMessage, hjid]
  · simp [sendMediaLoop]

/-- Witness for `heal_retry_behavior`: a live mapping for topic 1, a
"thread not found" on the first send and on the retried send. -/
theorem heal_retry_behavior_witness :
    (sendSimpleMessage .threadNotFound .threadNotFound (some 10)
        ⟨[("77@s.whatsapp.net", 1)], [], 0⟩ 1).2.2
      = [.sendAttempt 1, .mappingDeleted "77@s.whatsapp.net",
         .picDeleted "77@s.whatsapp.net", .saved,
         .recreateTopic "77@s.whatsapp.net", .sendAttempt 10] ∧
    (sendSimpleMessage .threadNotFound .threadNotFound (some 10)
        ⟨[("77@s.whatsapp.net", 1)], [], 0⟩ 1).1 = none := by
  have h := heal_retry_behavior ⟨[("77@s.whatsapp.net", 1)], [], 0⟩ 1 10
    "77@s.whatsapp.net" "77@s.whatsapp.net" .threadNotFound [] [] (by decide)
  exact ⟨h.1, h.2.1 (fun m hm => SinkResp.noConfusion hm)⟩

/-! ### Helper lemmas for the topic lifecycle proofs -/

theorem countKey_eraseKey {β : Type} (k : String) (l : List (String × β)) :
    countKey k (eraseKey k l) = countKey k l - 1 := by
  induction l with
  | nil => rfl
  | cons p t ih =>
    unfold countKey eraseKey at *
    rw [List.eraseP_cons, List.filter_cons]
    by_cases hk : (p.1 == k) = true
    · simp [hk]
    · have hk' : (p.1 == k) = false := by
        cases h : p.1 == k
        · rfl
        · exact absurd h hk
      simp only [hk', cond_false, List.filter_cons, Bool.false_eq_true, if_false]
      exact ih

theorem lookup_setPromise (l : List (Nat × Option (Option Nat))) (pid : Nat)
    (v : Option Nat) :
    (setPromise l pid v).lookup pid = (l.lookup pid).map (fun _ => some v) := by
  induction l with
  | nil => rfl
  | cons q t ih =>
    obtain ⟨k, w⟩ := q
    unfold setPromise at *
    rw [List.map_cons]
    by_cases hk : (k == pid) = true
    · have hpk : (pid == k) = true := by
        rw [beq_iff_eq] at hk ⊢
        exact hk.symm
      simp [hk, hpk, List.lookup_cons]
    · have hk' : (k == pid) = false := by
        cases h : k == pid
        · rfl
        · exact absurd h hk
      have hpk : (pid == k) = false := by
        cases h : pid == k
        · rfl
        · rw [beq_iff_eq] at h
          rw [h] at hk'
          simp at hk'
      simp only [hk', Bool.false_eq_true, if_false, List.lookup_cons, hpk]
      exact ih

theorem runStarts_joined (s : BridgeState) (chatJid : String) (pid : Nat)
    (hmap : s.chatMappings.lookup chatJid = none)
    (hjoin : s.creatingTopics.lookup chatJid = some pid) :
    ∀ k, runStarts s chatJid k = (s, List.replicate k (.joined pid)) := by
  intro k
  have hstep : getOrCreateTopicStart s chatJid = (.joined pid, s) := by
    unfold getOrCreateTopicStart
    rw [hmap, hjoin]
  induction k with
  | zero => rfl
  | succ n ih =>
    unfold runStarts
    rw [hstep]
    simp [ih, List.replicate_succ]

/-- C1: with no live mapping and no in-flight creation for conversation `C`,
any number `m + 1` of `getOrCreateTopic(C, …)` calls issued before the
creation resolves produce one `started` caller and `m` callers joined to the
same creation promise; the synchronous steps issue no Sink call; at most one
in-flight creation future exists for `C` at every point of the run; the
single creation body then issues exactly one Sink create-topic call; and
every caller observes the same result (the same topicId, or the same
failure). -/
theorem getOrCreateTopic_concurrent_dedup (s : BridgeState) (chatJid : String)
    (m : Nat) (outcome : Option Nat)
    (hmap : s.chatMappings.lookup chatJid = none)
    (hcnt : countKey chatJid s.creatingTopics = 0)
    (hcfg : s.configOk = true) :
    ((runStarts s chatJid (m + 1)).2
        = .started s.nextPromiseId
            :: List.replicate m (.joined s.nextPromiseId)) ∧
    ((runStarts s chatJid (m + 1)).1.createCalls = s.createCalls) ∧
    (∀ k, countKey chatJid (runStarts s chatJid k).1.creatingTopics ≤ 1) ∧
    ((creationComplete (runStarts s chatJid (m + 1)).1 chatJid outcome).createCalls
        = s.createCalls + 1) ∧
    (∀ res ∈ (runStarts s chatJid (m + 1)).2,
      resultOf (creationComplete (runStarts s chatJid (m + 1)).1 chatJid outcome)
        res = some outcome) := by
  have hlook : s.creatingTopics.lookup chatJid = none :=
    lookup_of_countKey_zero _ _ hcnt
  have hstart : getOrCreateTopicStart s chatJid =
      (.started s.nextPromiseId,
        { s with
          creatingTopics := (chatJid, s.nextPromiseId) :: s.creatingTopics
          promises := (s.nextPromiseId, none) :: s.promises
          nextPromiseId := s.nextPromiseId + 1 }) := by
    unfold getOrCreateTopicStart
    rw [hmap, hlook, hcfg]
    rfl
  have hmap1 :
      (({ s with
          creatingTopics := (chatJid, s.nextPromiseId) :: s.creatingTopics
          promises := (s.nextPromiseId, none) :: s.promises
          nextPromiseId := s.nextPromiseId + 1 } : BridgeState)).chatMappings.lookup
        chatJid = none := hmap
  have hjoin1 :
      (({ s with
          creatingTopics := (chatJid, s.nextPromiseId) :: s.creatingTopics
          promises := (s.nextPromiseId, none) :: s.promises
          nextPromiseId := s.nextPromiseId + 1 } : BridgeState)).creatingTopics.lookup
        chatJid = some s.nextPromiseId := List.lookup_cons_self
  have hfullAll : ∀ j, runStarts s chatJid (j + 1)
      = ({ s with
            creatingTopics := (chatJid, s.nextPromiseId) :: s.creatingTopics
            promises := (s.nextPromiseId, none) :: s.promises
            nextPromiseId := s.nextPromiseId + 1 },
          .started s.nextPromiseId
            :: List.replicate j (.joined s.nextPromiseId)) := by
    intro j
    unfold runStarts
    rw [hstart]
    simp [runStarts_joined _ chatJid s.nextPromiseId hmap1 hjoin1 j]
  refine ⟨?_, ?_, ?_, ?_, ?_⟩
  · rw [hfullAll m]
  · rw [hfullAll m]
  · intro k
    cases k with
    | zero =>
      simpa [runStarts] using Nat.le_of_eq (hcnt.trans rfl) |>.trans (by omega)
    | succ j =>
      rw [hfullAll j]
      show countKey chatJid
        ((chatJid, s.nextPromiseId) :: s.creatingTopics) ≤ 1
      unfold countKey at hcnt ⊢
      rw [List.filter_cons]
      simp only [beq_self_eq_true, if_true, List.length_cons]
      omega
  · rw [hfullAll m]
    cases outcome <;> simp [creationComplete, hjoin1]
  · intro res hres
    rw [hfullAll m] at hres ⊢
    have hprom :
        ((creationComplete
            { s with
              creatingTopics := (chatJid, s.nextPromiseId) :: s.creatingTopics
              promises := (s.nextPromiseId, none) :: s.promises
              nextPromiseId := s.nextPromiseId + 1 }
            chatJid outcome).promises.lookup s.nextPromiseId)
          = some (some outcome) := by
      cases outcome <;>
        simp [creationComplete, hjoin1, setPromise, List.lookup_cons]
    rcases List.mem_cons.mp hres with h | h
    · rw [h]
      simp [resultOf, hprom]
    · rw [List.eq_of_mem_replicate h]
      simp [resultOf, hprom]

/-- Witness for `getOrCreateTopic_concurrent_dedup`: three concurrent callers
on a fresh state share promise 0, and the completion issues the single create
call. -/
theorem getOrCreateTopic_concurrent_dedup_witness :
    (runStarts ⟨[], [], [], 0, 0, 0, true⟩ "55@s.whatsapp.net" 3).2
      = [.started 0, .joined 0, .joined 0] ∧
    (creationComplete (runStarts ⟨[], [], [], 0, 0, 0, true⟩
        "55@s.whatsapp.net" 3).1 "55@s.whatsapp.net" (some 7)).createCalls = 1 := by
  have h := getOrCreateTopic_concurrent_dedup ⟨[], [], [], 0, 0, 0, true⟩
    "55@s.whatsapp.net" 2 (some 7) (by decide) (by decide) rfl
  constructor
  · rw [h.1]
    rfl
  · rw [h.2.2.2.1]

/-- C9: when the Sink create-topic call fails (the creation body's catch
returns null), the completion step leaves the conversation-to-topic table and
the persisted state unchanged (no partial mapping, no save), resolves the
shared promise to the null failure every awaiting caller receives, removes
the in-flight creation entry in the `finally` clause, and a later call for
the same conversation starts a fresh creation attempt. -/
theorem create_failure_clean (s : BridgeState) (chatJid : String) (pid : Nat)
    (hpend : s.creatingTopics.lookup chatJid = some pid)
    (hcnt : countKey chatJid s.creatingTopics = 1)
    (hpr : s.promises.lookup pid = some none)
    (hmap : s.chatMappings.lookup chatJid = none)
    (hcfg : s.configOk = true) :
    (creationComplete s chatJid none).chatMappings = s.chatMappings ∧
    (creationComplete s chatJid none).dbSaves = s.dbSaves ∧
    (creationComplete s chatJid none).promises.lookup pid = some (some none) ∧
    (creationComplete s chatJid none).creatingTopics.lookup chatJid = none ∧
    (getOrCreateTopicStart (creationComplete s chatJid none) chatJid).1
        = .started (creationComplete s chatJid none).nextPromiseId := by
  have hcc : creationComplete s chatJid none =
      { s with
        createCalls := s.createCalls + 1
        promises := setPromise s.promises pid none
        creatingTopics := eraseKey chatJid s.creatingTopics } := by
    unfold creationComplete
    rw [hpend]
  have herase : (eraseKey chatJid s.creatingTopics).lookup chatJid = none := by
    apply lookup_of_countKey_zero
    rw [countKey_eraseKey, hcnt]
  refine ⟨?_, ?_, ?_, ?_, ?_⟩
  · rw [hcc]
  · rw [hcc]
  · rw [hcc]
    show (setPromise s.promises pid none).lookup pid = some (some none)
    rw [lookup_setPromise, hpr]
    rfl
  · rw [hcc]
    exact herase
  · rw [hcc]
    unfold getOrCreateTopicStart
    show (match (s.chatMappings.lookup chatJid : Option Nat) with
      | some topicId => (StartResult.mapped topicId, _)
      | none => _).1 = _
    rw [hmap]
    show (match ((eraseKey chatJid s.creatingTopics).lookup chatJid : Option Nat) with
      | some pid => (StartResult.joined pid, _)
      | none => _).1 = _
    rw [herase]
    rw [hcfg]
    rfl

/-- Witness for `create_failure_clean`: one pending creation for conversation
"55@s.whatsapp.net" whose Sink call fails. -/
theorem create_failure_clean_witness :
    (creationComplete ⟨[], [("55@s.whatsapp.net", 0)], [(0, none)], 1, 0, 0, true⟩
        "55@s.whatsapp.net" none).chatMappings = [] ∧
    (creationComplete ⟨[], [("55@s.whatsapp.net", 0)], [(0, none)], 1, 0, 0, true⟩
        "55@s.whatsapp.net" none).creatingTopics.lookup "55@s.whatsapp.net"
      = none ∧
    (getOrCreateTopicStart
        (creationComplete ⟨[], [("55@s.whatsapp.net", 0)], [(0, none)], 1, 0, 0, true⟩
          "55@s.whatsapp.net" none)
        "55@s.whatsapp.net").1
      = .started 1 := by
  have h := create_failure_clean
    ⟨[], [("55@s.whatsapp.net", 0)], [(0, none)], 1, 0, 0, true⟩
    "55@s.whatsapp.net" 0 (by decide) (by decide) (by decide) (by decide) rfl
  exact ⟨h.1, h.2.2.2.1, h.2.2.2.2⟩
